import Mathlib

/-!
Shallow embedding of `src/pdf_processor.py` (class `PDFProcessor`).

External effects (HTTP requests, user input, filesystem, database) are made
explicit: each run is parameterised by an environment describing the outcome
of every external interaction, and the functions return, besides the Python
return value, the ordered trace of outward-visible events (network calls,
selector re-prompts, artifacts written) and the rows persisted to the
database.
-/

namespace PDFProc

/-- Outcome of one outbound HTTP attempt inside `make_api_request`:
either a `requests.exceptions.RequestException` (network fault or
`raise_for_status`), or a JSON body whose `error` field is truthy
(→ `ValueError`), or a successful JSON body. -/
inductive ApiOutcome (α : Type) where
  | transportFault
  | apiError (msg : String)
  | success (r : α)
deriving Repr, DecidableEq

/-- How a call of `make_api_request` terminates when it does not return:
a propagated `RequestException` (last attempt), a propagated `ValueError`
from the response error flag, or the final
`raise Exception("Не удалось выполнить запрос ...")` reached only when the
retry loop body never runs (`max_retries = 0`). -/
inductive ReqError where
  | transport
  | apiErr (msg : String)
  | exhausted
deriving Repr, DecidableEq

/-- The `for attempt in range(self.max_retries)` loop of
`PDFProcessor.make_api_request` (src/pdf_processor.py lines 121-144),
with `remaining` iterations left, currently at iteration `attempt`.
`oracle i` is the outcome of the `i`-th outbound call.  Returns the result
together with the number of outbound calls performed and the number of
`time.sleep(self.retry_delay)` executed.  A `ValueError` raised by the
error-flag check is not a `requests.exceptions.RequestException`, so the
`except` clause does not catch it and it propagates at once; exhausting
the loop without returning reaches the final
`raise Exception("Не удалось выполнить запрос ...")`. -/
def makeApiRequestAux (oracle : Nat → ApiOutcome α) (maxRetries : Nat) :
    Nat → Nat → Except ReqError α × Nat × Nat
  | 0, attempt => (.error .exhausted, attempt, attempt)
  | remaining + 1, attempt =>
    match oracle attempt with
    | .success r => (.ok r, attempt + 1, attempt)
    | .apiError m => (.error (.apiErr m), attempt + 1, attempt)
    | .transportFault =>
      if attempt = maxRetries - 1 then
        (.error .transport, attempt + 1, attempt)
      else
        makeApiRequestAux oracle maxRetries remaining (attempt + 1)

/-- `PDFProcessor.make_api_request` with the endpoint already resolved:
runs the retry loop over `range(maxRetries)` from attempt 0.  The default
attempt budget is `self.max_retries = 3` and the fixed delay
`self.retry_delay = 2` seconds; first component is the Python result,
second the number of outbound calls, third the number of sleeps. -/
def make_api_request (oracle : Nat → ApiOutcome α) (maxRetries : Nat) :
    Except ReqError α × Nat × Nat :=
  makeApiRequestAux oracle maxRetries maxRetries 0

/-- Default attempt budget `self.max_retries` set in `PDFProcessor.__init__`. -/
def defaultMaxRetries : Nat := 3

/-- Fixed inter-attempt delay `self.retry_delay` (seconds) set in
`PDFProcessor.__init__`. -/
def defaultRetryDelay : Nat := 2

/-- Python `str.lower()` (on the ASCII range relevant here). -/
def pyLower (s : String) : String :=
  ⟨s.data.map Char.toLower⟩

/-- Python `str.endswith(suffix)`. -/
def pyEndsWith (s suffix : String) : Bool :=
  suffix.data.isSuffixOf s.data

/-- Python `s[:n]` on a string. -/
def pyTake (s : String) (n : Nat) : String :=
  ⟨s.data.take n⟩

/-- Split a character list at a separator character. -/
def splitOnCharAux (sep : Char) : List Char → List Char → List (List Char)
  | [], acc => [acc.reverse]
  | x :: xs, acc =>
    if x = sep then acc.reverse :: splitOnCharAux sep xs []
    else splitOnCharAux sep xs (x :: acc)

/-- Python `sep.join(parts)` for `sep = ' → '`
(the `operations` column of `save_to_db`). -/
def joinArrow : List String → String
  | [] => ""
  | [s] => s
  | s :: rest => s ++ " → " ++ joinArrow rest

/-- The `endpoints` table of `API_CONFIG['pdfco']` (src/pdf_processor.py
lines 28-34). -/
def pdfcoEndpoints : List (String × String) :=
  [("upload", "/file/upload"),
   ("info", "/pdf/info"),
   ("convert_jpg", "/pdf/convert/to/jpg"),
   ("optimize", "/pdf/optimize"),
   ("split", "/pdf/split")]

/-- The `endpoints` table of `API_CONFIG['ilovepdf']` (src/pdf_processor.py
lines 39-47). -/
def ilovepdfEndpoints : List (String × String) :=
  [("upload", "/upload"),
   ("merge", "/merge"),
   ("pdf_to_docx", "/pdf/to/docx"),
   ("watermark", "/watermark"),
   ("compress_img", "/image/compress"),
   ("rotate_img", "/image/rotate"),
   ("convert_png", "/image/to/png")]

/-- Python dict lookup `d[k]`: `some v` when the key is present, `none`
standing for a `KeyError`. -/
def dictLookup (d : List (String × String)) (k : String) : Option String :=
  (d.find? (fun p => p.1 = k)).map (fun p => p.2)

/-- Observable events of a run: network calls, selector interactions,
artifacts written to disk. -/
structure Artifact where
  path : String
  size : Int
  ftype : String
deriving Repr, DecidableEq

/-- Trace events emitted by the embedding, in program order. -/
inductive Event where
  /-- `upload_file(path, api)` reached the network (the file was opened and
  POSTed to the provider's upload endpoint). -/
  | upload (api : String) (path : String)
  /-- `get_pdf_info` issued the primary `/pdf/info` request. -/
  | infoRequest
  /-- `get_pdf_info` issued the alternative page-count request over the
  network (only possible if the endpoint key resolves). -/
  | fallbackRequest
  /-- The stage-1 selection loop refused choice `'3'` because
  `pdf_info['pages'] < 2` and re-prompted. -/
  | splitRejected
  /-- A selection loop re-prompted on input outside `{'1','2','3'}`. -/
  | invalidChoice
  /-- `make_api_request` was invoked for a processing operation. -/
  | opRequest (api : String) (endpoint : String)
  /-- `download_result(url, save_path, api)` issued its GET request. -/
  | download (api : String) (url : String)
  /-- A result file was written to disk and appended to
  `downloaded_files` for step `step`. -/
  | artifactSaved (step : Nat) (a : Artifact)
deriving Repr, DecidableEq

/-- The JSON body of a `/pdf/info` response, as read by `get_pdf_info`:
`result.get('info', {}).get('PageCount')`, `result.get('name', ...)`,
`result.get('size', 0)`. -/
structure InfoResponse where
  pageCount : Option Int
  name : Option String
  size : Option Int
deriving Repr, DecidableEq

/-- The value `get_pdf_info` returns on success. -/
structure PdfInfo where
  name : String
  pages : Int
  size : Int
deriving Repr, DecidableEq

/-- `os.path.basename` for POSIX paths: the part after the last `/`. -/
def basename (p : String) : String :=
  ⟨(splitOnCharAux '/' p.data []).getLastD p.data⟩

/-- `PDFProcessor.get_pdf_info` (src/pdf_processor.py lines 160-191).
`infoNet` is the outcome of the primary `/pdf/info` request (already
through the retry loop; `Except.error` covers any exception it raised),
`fallbackNet` the JSON `pageCount` field the alternative endpoint would
return if it were ever reached.  Faithful points: when `PageCount` is
absent, `pages` is `None` and the comparison `pages < 1` raises a
`TypeError`, caught by the outer `except`, so the function returns `None`;
when `pages < 1`, the alternative request uses endpoint key
`'pdf/page/count'`, which `API_CONFIG['pdfco']['endpoints']` does not
contain, so `make_api_request` raises `KeyError` before any network call
and the inner `except` leaves `pages` unchanged. -/
def get_pdf_info (infoNet : Except Unit InfoResponse)
    (fallbackNet : Except Unit (Option Int)) (fileUrl : String) :
    Option PdfInfo × List Event :=
  match infoNet with
  | .error _ => (none, [Event.infoRequest])
  | .ok result =>
    match result.pageCount with
    | none => (none, [Event.infoRequest])
    | some p =>
      let pe :=
        if p < 1 then
          match dictLookup pdfcoEndpoints "pdf/page/count" with
          | none => (p, ([] : List Event))
          | some _ =>
            match fallbackNet with
            | .ok r => (r.getD 0, [Event.fallbackRequest])
            | .error _ => (p, [Event.fallbackRequest])
        else (p, [])
      (some ⟨result.name.getD (basename fileUrl), pe.1, result.size.getD 0⟩,
       Event.infoRequest :: pe.2)

/-- The `endpoints` dict of `PDFProcessor.process_pdfco_operation`
(src/pdf_processor.py lines 195-199). -/
def pdfcoOpEndpoints : List (String × String) :=
  [("1", "convert_jpg"), ("2", "optimize"), ("3", "split")]

/-- The result type of `process_pdfco_operation` on success:
`'image' if operation == '1' else 'pdf'` (src/pdf_processor.py line 220). -/
def pdfcoOutputType (operation : String) : String :=
  if operation = "1" then "image" else "pdf"

/-- The nested `endpoints` dict of `PDFProcessor.process_ilovepdf_operation`
(src/pdf_processor.py lines 227-238); an unknown `file_type` is a
`KeyError`, modelled by the empty table. -/
def ilovepdfOpEndpoints (fileType : String) : List (String × String) :=
  if fileType = "pdf" then
    [("1", "merge"), ("2", "pdf_to_docx"), ("3", "watermark")]
  else if fileType = "image" then
    [("1", "compress_img"), ("2", "rotate_img"), ("3", "convert_png")]
  else []

/-- The result type of `process_ilovepdf_operation` on success:
`'docx' if operation == '2' and file_type == 'pdf' else file_type`
(src/pdf_processor.py line 246). -/
def ilovepdfOutputType (operation fileType : String) : String :=
  if operation = "2" ∧ fileType = "pdf" then "docx" else fileType

/-- The JSON body of a processing response as read by `process_file`:
`result.get('urls', [result.get('url')])`. -/
structure OpResponse where
  urls : Option (List (Option String))
  url : Option String
deriving Repr, DecidableEq

/-- `PDFProcessor.process_pdfco_operation` (src/pdf_processor.py lines
193-223): resolves the endpoint key, performs the request (`net` is its
outcome through the retry loop; the interactive page-range prompt for
`'3'` only fills the payload), and returns the pair
`(result, output type)` — in the source the two are `None` together
exactly when anything raised inside the `try`, so the pair is modelled as
one `Option`. -/
def process_pdfco_operation (net : Except Unit OpResponse)
    (operation : String) : Option (OpResponse × String) × List Event :=
  match dictLookup pdfcoOpEndpoints operation with
  | none => (none, [])
  | some ep =>
    match net with
    | .ok r => (some (r, pdfcoOutputType operation),
                [Event.opRequest "pdfco" ep])
    | .error _ => (none, [Event.opRequest "pdfco" ep])

/-- `PDFProcessor.process_ilovepdf_operation` (src/pdf_processor.py lines
225-249); as for the pdfco variant, `(result, result type)` are `None`
together, modelled as one `Option`. -/
def process_ilovepdf_operation (net : Except Unit OpResponse)
    (operation fileType : String) :
    Option (OpResponse × String) × List Event :=
  match dictLookup (ilovepdfOpEndpoints fileType) operation with
  | none => (none, [])
  | some ep =>
    match net with
    | .ok r => (some (r, ilovepdfOutputType operation fileType),
                [Event.opRequest "ilovepdf" ep])
    | .error _ => (none, [Event.opRequest "ilovepdf" ep])

/-- `os.path.splitext(...)[0]` restricted to a basename: the name up to its
last `.`, where the leading dots of the name never start an extension. -/
def splitextRoot (name : String) : String :=
  let cs := name.data
  let lead := (cs.takeWhile (fun c => c = '.')).length
  let body := cs.drop lead
  let fromEnd := body.reverse.indexOf '.'
  if fromEnd = body.length then name
  else String.mk (cs.take (lead + (body.length - 1 - fromEnd)))

/-- Python truthiness of the `error` argument of `save_to_db`
(`None` and the empty string are falsy). -/
def pyTruthy : Option String → Bool
  | some s => !s.data.isEmpty
  | none => false

/-- The row inserted into `processed_files` by `save_to_db`. -/
structure JobRow where
  originalFilename : String
  operations : String
  status : String
  resultPath : String
  errorMessage : Option String
deriving Repr, DecidableEq

/-- A row inserted into `processed_files_data` by `save_to_db`. -/
structure DataRow where
  stepNumber : Nat
  filePath : String
  fileSize : Int
  fileType : String
deriving Repr, DecidableEq

/-- The `processed_files_data` row for one downloaded file of step `step`. -/
def artifactRow (step : Nat) (a : Artifact) : DataRow :=
  ⟨step, a.path, a.size, a.ftype⟩

/-- `PDFProcessor.save_to_db` (src/pdf_processor.py lines 272-308).
`resultFiles` is the `result_files` dict in insertion order; `dbOk` is
whether the database transaction succeeds (any exception is caught, logged
and turned into `False`, with nothing committed).  The status is
`'failed' if error else 'completed'` and the stored message
`str(error)[:500] if error else None` — both on Python truthiness. -/
def save_to_db (filename outputDir : String) (operations : List String)
    (resultFiles : List (Nat × List Artifact)) (error : Option String)
    (dbOk : Bool) : Bool × Option (JobRow × List DataRow) :=
  if dbOk then
    (true, some
      (⟨filename,
        joinArrow operations,
        if pyTruthy error then "failed" else "completed",
        outputDir,
        if pyTruthy error then some (pyTake (error.getD "") 500) else none⟩,
       resultFiles.flatMap (fun sf => sf.2.map (artifactRow sf.1))))
  else (false, none)

/-- The stage-1 selection loop (src/pdf_processor.py lines 354-361):
consume user inputs until one is in `{'1','2','3'}` and, when it is `'3'`,
`pdf_info['pages'] ≥ 2`; each refusal prints a message and re-prompts.
`none` models a loop that never exits (inputs exhausted). -/
def selectStage1Choice (pages : Int) :
    List String → List Event × Option String
  | [] => ([], none)
  | c :: rest =>
    if c = "1" ∨ c = "2" ∨ c = "3" then
      if c = "3" ∧ pages < 2 then
        (Event.splitRejected :: (selectStage1Choice pages rest).1,
         (selectStage1Choice pages rest).2)
      else ([], some c)
    else
      (Event.invalidChoice :: (selectStage1Choice pages rest).1,
       (selectStage1Choice pages rest).2)

/-- The stage-2 selection loop (src/pdf_processor.py lines 407-411):
consume user inputs until one is in `{'1','2','3'}`. -/
def selectStage2Choice : List String → List Event × Option String
  | [] => ([], none)
  | c :: rest =>
    if c = "1" ∨ c = "2" ∨ c = "3" then ([], some c)
    else
      (Event.invalidChoice :: (selectStage2Choice rest).1,
       (selectStage2Choice rest).2)

/-- The download loop shared by both stages (src/pdf_processor.py lines
379-388 and 440-454): enumerate the non-`None` urls; for each, attempt
`download_result` (its outcome and the resulting on-disk size are given by
`dl` at the url's index) and on success append an artifact
`{path, size, type}` with path
`output_dir/base_name_step<step>_<i+1><ext>`. -/
def downloadLoop (api outputDir baseName ext resType : String) (step : Nat)
    (dl : List (Option Int)) : List String → Nat → List Artifact × List Event
  | [], _ => ([], [])
  | url :: rest, i =>
    let savePath :=
      outputDir ++ "/" ++ baseName ++ "_step" ++ toString step ++ "_" ++
        toString (i + 1) ++ ext
    let tail := downloadLoop api outputDir baseName ext resType step dl rest (i + 1)
    match dl.getD i none with
    | some sz =>
      (⟨savePath, sz, resType⟩ :: tail.1,
       Event.download api url ::
         Event.artifactSaved step ⟨savePath, sz, resType⟩ :: tail.2)
    | none => (tail.1, Event.download api url :: tail.2)

/-- The operation-name dict appended to `operations` after stage 1
(src/pdf_processor.py lines 368-372); the selection loop guarantees the
choice is one of `'1'`, `'2'`, `'3'`. -/
def stage1OpName (choice : String) : String :=
  if choice = "1" then "Конвертация в JPG"
  else if choice = "2" then "Сжатие PDF"
  else "Разделение PDF"

/-- The nested operation-name dict appended after stage 2
(src/pdf_processor.py lines 423-434). -/
def stage2OpName (fileType choice : String) : String :=
  if fileType = "pdf" then
    if choice = "1" then "Объединение PDF"
    else if choice = "2" then "Конвертация в Word"
    else "Добавление водяного знака"
  else
    if choice = "1" then "Сжатие изображения"
    else if choice = "2" then "Поворот изображения"
    else "Конвертация в PNG"

/-- The extension table for stage-2 downloads
(src/pdf_processor.py lines 441-445). -/
def stage2Ext (resultType : String) : String :=
  if resultType = "pdf" then ".pdf"
  else if resultType = "image" then ".jpg"
  else if resultType = "docx" then ".docx"
  else ".bin"

/-- Environment of one `process_file` run: the outcome of every external
interaction, in the order the program would perform them. -/
structure Env where
  /-- `os.path.exists(file_path)`. -/
  fileExists : Bool
  /-- `os.path.getsize(file_path)` of the source file. -/
  fileSize : Int
  /-- Result of `upload_file(file_path, 'pdfco')`: the extracted
  `url`/`file_url` field, `none` when the upload failed (any exception is
  caught inside `upload_file` and becomes `None`). -/
  uploadPdfcoUrl : Option String
  /-- Outcome of the primary `/pdf/info` request. -/
  infoNet : Except Unit InfoResponse
  /-- `pageCount` field the alternative page-count endpoint would return. -/
  fallbackNet : Except Unit (Option Int)
  /-- Successive stage-1 selector inputs. -/
  stage1Choices : List String
  /-- Outcome of the stage-1 processing request. -/
  stage1Net : Except Unit OpResponse
  /-- Stage-1 download outcomes by url index: `some size` on success. -/
  stage1Dl : List (Option Int)
  /-- Answer to `"Выполнить обработку на ilovepdf API? (y/n)"`. -/
  stage2Answer : String
  /-- Successive stage-2 selector inputs. -/
  stage2Choices : List String
  /-- Result of `upload_file(current_file, 'ilovepdf')`. -/
  uploadIlovepdfUrl : Option String
  /-- Outcome of the stage-2 processing request. -/
  stage2Net : Except Unit OpResponse
  /-- Stage-2 download outcomes by url index. -/
  stage2Dl : List (Option Int)
  /-- Whether the `save_to_db` transaction succeeds. -/
  dbOk : Bool
deriving Repr

/-- What a `process_file` run yields: the Python return value
(`none` when an interactive loop never exits), the rows committed by
`save_to_db` (if any), and the event trace. -/
structure RunResult where
  outcome : Option (Bool × String)
  persisted : Option (JobRow × List DataRow)
  trace : List Event
deriving Repr, DecidableEq

/-- The `except` path of `process_file` (src/pdf_processor.py lines
463-467): log, best-effort `save_to_db` with the error message, and return
`(False, error_msg)` — `save_to_db` never raises, so neither does this. -/
def finishFail (filename outputDir : String) (operations : List String)
    (resultFiles : List (Nat × List Artifact)) (msg : String) (dbOk : Bool)
    (trace : List Event) : RunResult :=
  ⟨some (false, msg),
   (save_to_db filename outputDir operations resultFiles (some msg) dbOk).2,
   trace⟩

/-- The success path of `process_file` (src/pdf_processor.py lines
459-461). -/
def finishOk (filename outputDir : String) (operations : List String)
    (resultFiles : List (Nat × List Artifact)) (dbOk : Bool)
    (trace : List Event) : RunResult :=
  ⟨some (true, "Обработка завершена успешно"),
   (save_to_db filename outputDir operations resultFiles none dbOk).2,
   trace⟩

/-- Stage 2 of `process_file` (src/pdf_processor.py lines 397-457) followed
by the terminal save: entered when the user answered `'y'`; receives the
stage-1 operations list, result files, the first stage-1 artifact's path
(`current_file`) and the stage-1 output type. -/
def runStage2 (env : Env) (filename outputDir baseName : String)
    (operations1 : List String) (resultFiles1 : List (Nat × List Artifact))
    (currentFile currentType : String) (trace : List Event) : RunResult :=
  let fileType := if currentType = "pdf" then "pdf" else "image"
  match (selectStage2Choice env.stage2Choices).2 with
  | none => ⟨none, none, trace ++ (selectStage2Choice env.stage2Choices).1⟩
  | some choice =>
    let trace := trace ++ (selectStage2Choice env.stage2Choices).1 ++
      [Event.upload "ilovepdf" currentFile]
    match env.uploadIlovepdfUrl with
    | none =>
      finishFail filename outputDir operations1 resultFiles1
        "Не удалось загрузить файл на ilovepdf" env.dbOk trace
    | some _fileUrl =>
      let op := process_ilovepdf_operation env.stage2Net choice fileType
      match op.1 with
      | some rt =>
        let urls := (rt.1.urls.getD [rt.1.url]).filterMap id
        let dl :=
          downloadLoop "ilovepdf" outputDir baseName (stage2Ext rt.2)
            rt.2 2 env.stage2Dl urls 0
        let resultFiles :=
          if dl.1.isEmpty then resultFiles1 else resultFiles1 ++ [(2, dl.1)]
        finishOk filename outputDir
          (operations1 ++ [stage2OpName fileType choice]) resultFiles env.dbOk
          (trace ++ op.2 ++ dl.2)
      | none =>
        finishFail filename outputDir operations1 resultFiles1
          "Ошибка обработки на ilovepdf" env.dbOk (trace ++ op.2)

/-- The body of `PDFProcessor.process_file` after the two input checks
(src/pdf_processor.py lines 322-467): output preparation, the `try` block
and its `except` handler. -/
def processMain (filePath : String) (env : Env) : RunResult :=
  let baseName := splitextRoot (basename filePath)
    let outputDir := "output/" ++ baseName
    let filename := basename filePath
    let trace := [Event.upload "pdfco" filePath]
    match env.uploadPdfcoUrl with
    | none =>
      finishFail filename outputDir [] []
        "Не удалось загрузить файл на PDF.co" env.dbOk trace
    | some fileUrl =>
      let gi := get_pdf_info env.infoNet env.fallbackNet fileUrl
      let pdfInfo := gi.1.getD ⟨filename, 1, env.fileSize⟩
      let trace := trace ++ gi.2
      match (selectStage1Choice pdfInfo.pages env.stage1Choices).2 with
      | none =>
        ⟨none, none,
         trace ++ (selectStage1Choice pdfInfo.pages env.stage1Choices).1⟩
      | some choice =>
        let trace :=
          trace ++ (selectStage1Choice pdfInfo.pages env.stage1Choices).1
        let op := process_pdfco_operation env.stage1Net choice
        match op.1 with
        | some rt =>
          let operations := [stage1OpName choice]
          let urls := (rt.1.urls.getD [rt.1.url]).filterMap id
          let ext := if rt.2 = "image" then ".jpg" else ".pdf"
          let dl :=
            downloadLoop "pdfco" outputDir baseName ext rt.2 1
              env.stage1Dl urls 0
          let trace := trace ++ op.2 ++ dl.2
          match dl.1 with
          | [] =>
            finishFail filename outputDir operations []
              "Не удалось скачать результаты обработки" env.dbOk trace
          | first :: _ =>
            let resultFiles1 := [(1, dl.1)]
            if pyLower env.stage2Answer = "y" then
              runStage2 env filename outputDir baseName operations
                resultFiles1 first.path rt.2 trace
            else
              finishOk filename outputDir operations resultFiles1 env.dbOk
                trace
        | none =>
          finishFail filename outputDir [] []
            "Ошибка обработки файла" env.dbOk (trace ++ op.2)

/-- `PDFProcessor.process_file` (src/pdf_processor.py lines 310-467):
the existence check, the `.pdf` suffix check (case-insensitive), then
the processing body. -/
def process_file (filePath : String) (env : Env) : RunResult :=
  if !env.fileExists then
    ⟨some (false, "Файл не найден: " ++ filePath), none, []⟩
  else if !(pyEndsWith (pyLower filePath) ".pdf") then
    ⟨some (false, "Поддерживаются только PDF файлы"), none, []⟩
  else
    processMain filePath env

/-- The `processed_files_data` rows corresponding to the artifacts a trace
records as written (`downloaded_files.append` events), in program order. -/
def savedRows (t : List Event) : List DataRow :=
  t.filterMap (fun e =>
    match e with
    | .artifactSaved s a => some (artifactRow s a)
    | _ => none)

/-- The file paths a trace uploads to the ilovepdf provider, in order. -/
def ilovepdfUploads (t : List Event) : List String :=
  t.filterMap (fun e =>
    match e with
    | .upload api p => if api = "ilovepdf" then some p else none
    | _ => none)

/-- The stage-1 artifacts a trace records as written, in download order. -/
def step1Arts (t : List Event) : List Artifact :=
  t.filterMap (fun e =>
    match e with
    | .artifactSaved s a => if s = 1 then some a else none
    | _ => none)

/-- The first stage-1 artifact of a trace, in download order. -/
def firstStep1Artifact (t : List Event) : Option Artifact :=
  (step1Arts t).head?

/-- A baseline run environment: a 3-page `report.pdf` uploads fine, stage 1
converts to JPG producing three result urls that all download, stage 2 is
declined, the database is up. -/
def baseEnv : Env where
  fileExists := true
  fileSize := 1000
  uploadPdfcoUrl := some "https://files.pdf.co/report.pdf"
  infoNet := .ok ⟨some 3, some "report.pdf", some 1000⟩
  fallbackNet := .ok none
  stage1Choices := ["1"]
  stage1Net := .ok ⟨some [some "u1", some "u2", some "u3"], none⟩
  stage1Dl := [some 10, some 20, some 30]
  stage2Answer := "n"
  stage2Choices := []
  uploadIlovepdfUrl := none
  stage2Net := .error ()
  stage2Dl := []
  dbOk := true

/-- Environment for the stage-2-produces-nothing run: stage 2 is opted in
(`convert_png` on image input), its operation succeeds with one result url,
but the download of that url fails, so stage 2 yields zero artifacts. -/
def envStage2Empty : Env :=
  { baseEnv with
    stage2Answer := "y"
    stage2Choices := ["3"]
    uploadIlovepdfUrl := some "https://ilovepdf/up"
    stage2Net := .ok ⟨some [some "v1"], none⟩
    stage2Dl := [none] }

/-- The job row the stage-2-produces-nothing run persists. -/
def rowStage2Empty : JobRow :=
  ⟨"report.pdf", "Конвертация в JPG → Конвертация в PNG", "completed",
   "output/report", none⟩

/-- The artifact rows persisted by runs whose stage 1 downloaded the three
baseline files: one `processed_files_data` row per stage-1 artifact. -/
def step1Rows3 : List DataRow :=
  [⟨1, "output/report/report_step1_1.jpg", 10, "image"⟩,
   ⟨1, "output/report/report_step1_2.jpg", 20, "image"⟩,
   ⟨1, "output/report/report_step1_3.jpg", 30, "image"⟩]

/-- Environment for the one-page-split run: the document has one page and
the user first picks `'3'` (split), is re-prompted, then picks `'2'`. -/
def envOnePageSplit : Env :=
  { baseEnv with
    infoNet := .ok ⟨some 1, some "single.pdf", some 99⟩
    stage1Choices := ["3", "2"]
    stage1Net := .ok ⟨none, some "w1"⟩
    stage1Dl := [some 11] }

/-- Environment for the stage-2-upload-failure run: stage 1 succeeds with
three artifacts, stage 2 is opted in but `upload_file` to ilovepdf fails. -/
def envStage2UploadFail : Env :=
  { baseEnv with
    stage2Answer := "y"
    stage2Choices := ["1"]
    uploadIlovepdfUrl := none }

/-- The job row the stage-2-upload-failure run persists. -/
def rowStage2UploadFail : JobRow :=
  ⟨"report.pdf", "Конвертация в JPG", "failed", "output/report",
   some "Не удалось загрузить файл на ilovepdf"⟩

/-- Environment for a stage-2 run forwarding the first stage-1 artifact:
stage 1 yields three artifacts, stage 2 (rotate on image input) succeeds. -/
def envForward : Env :=
  { baseEnv with
    stage2Answer := "y"
    stage2Choices := ["2"]
    uploadIlovepdfUrl := some "https://ilovepdf/up"
    stage2Net := .ok ⟨none, some "v1"⟩
    stage2Dl := [some 44] }

theorem makeApiRequestAux_allTransport (oracle : Nat → ApiOutcome α) (k : Nat)
    (hall : ∀ i, i < k → oracle i = .transportFault) :
    ∀ remaining attempt, remaining + attempt = k → 0 < remaining →
      makeApiRequestAux oracle k remaining attempt =
        (.error .transport, k, k - 1) := by
  intro remaining
  induction remaining with
  | zero => intro attempt _ h; omega
  | succ m ih =>
    intro attempt hk _
    have hlt : attempt < k := by omega
    simp only [makeApiRequestAux, hall attempt hlt]
    by_cases hlast : attempt = k - 1
    · have h1 : attempt + 1 = k := by omega
      simp [← h1, ← hlast]
    · rw [if_neg hlast]
      exact ih (attempt + 1) (by omega) (by omega)

theorem makeApiRequestAux_apiFault (oracle : Nat → ApiOutcome α) (k i : Nat)
    (m : String) (hik : i < k)
    (hb : ∀ j, j < i → oracle j = .transportFault)
    (ha : oracle i = .apiError m) :
    ∀ remaining attempt, remaining + attempt = k → attempt ≤ i →
      makeApiRequestAux oracle k remaining attempt =
        (.error (.apiErr m), i + 1, i) := by
  intro remaining
  induction remaining with
  | zero => intro attempt h hle; omega
  | succ mm ih =>
    intro attempt hk hle
    by_cases hai : attempt = i
    · subst hai
      simp only [makeApiRequestAux, ha]
    · have hai' : attempt < i := by omega
      have hne : attempt ≠ k - 1 := by omega
      simp only [makeApiRequestAux, hb attempt hai', if_neg hne]
      exact ih (attempt + 1) (by omega) (by omega)

@[simp]
theorem savedRows_nil : savedRows [] = [] := rfl

@[simp]
theorem savedRows_cons_upload (api p : String) (t : List Event) :
    savedRows (Event.upload api p :: t) = savedRows t := rfl

@[simp]
theorem savedRows_cons_info (t : List Event) :
    savedRows (Event.infoRequest :: t) = savedRows t := rfl

@[simp]
theorem savedRows_cons_fallback (t : List Event) :
    savedRows (Event.fallbackRequest :: t) = savedRows t := rfl

@[simp]
theorem savedRows_cons_splitRejected (t : List Event) :
    savedRows (Event.splitRejected :: t) = savedRows t := rfl

@[simp]
theorem savedRows_cons_invalid (t : List Event) :
    savedRows (Event.invalidChoice :: t) = savedRows t := rfl

@[simp]
theorem savedRows_cons_op (a b : String) (t : List Event) :
    savedRows (Event.opRequest a b :: t) = savedRows t := rfl

@[simp]
theorem savedRows_cons_download (api u : String) (t : List Event) :
    savedRows (Event.download api u :: t) = savedRows t := rfl

@[simp]
theorem savedRows_cons_saved (step : Nat) (a : Artifact) (t : List Event) :
    savedRows (Event.artifactSaved step a :: t) =
      artifactRow step a :: savedRows t := rfl

@[simp]
theorem ilovepdfUploads_nil : ilovepdfUploads [] = [] := rfl

@[simp]
theorem ilovepdfUploads_cons_upload_pdfco (p : String) (t : List Event) :
    ilovepdfUploads (Event.upload "pdfco" p :: t) = ilovepdfUploads t := rfl

@[simp]
theorem ilovepdfUploads_cons_upload_ilovepdf (p : String) (t : List Event) :
    ilovepdfUploads (Event.upload "ilovepdf" p :: t) =
      p :: ilovepdfUploads t := rfl

@[simp]
theorem ilovepdfUploads_cons_info (t : List Event) :
    ilovepdfUploads (Event.infoRequest :: t) = ilovepdfUploads t := rfl

@[simp]
theorem ilovepdfUploads_cons_fallback (t : List Event) :
    ilovepdfUploads (Event.fallbackRequest :: t) = ilovepdfUploads t := rfl

@[simp]
theorem ilovepdfUploads_cons_splitRejected (t : List Event) :
    ilovepdfUploads (Event.splitRejected :: t) = ilovepdfUploads t := rfl

@[simp]
theorem ilovepdfUploads_cons_invalid (t : List Event) :
    ilovepdfUploads (Event.invalidChoice :: t) = ilovepdfUploads t := rfl

@[simp]
theorem ilovepdfUploads_cons_op (a b : String) (t : List Event) :
    ilovepdfUploads (Event.opRequest a b :: t) = ilovepdfUploads t := rfl

@[simp]
theorem ilovepdfUploads_cons_download (api u : String) (t : List Event) :
    ilovepdfUploads (Event.download api u :: t) = ilovepdfUploads t := rfl

@[simp]
theorem ilovepdfUploads_cons_saved (step : Nat) (a : Artifact)
    (t : List Event) :
    ilovepdfUploads (Event.artifactSaved step a :: t) = ilovepdfUploads t :=
  rfl

@[simp]
theorem step1Arts_nil : step1Arts [] = [] := rfl

@[simp]
theorem step1Arts_cons_upload (api p : String) (t : List Event) :
    step1Arts (Event.upload api p :: t) = step1Arts t := rfl

@[simp]
theorem step1Arts_cons_info (t : List Event) :
    step1Arts (Event.infoRequest :: t) = step1Arts t := rfl

@[simp]
theorem step1Arts_cons_fallback (t : List Event) :
    step1Arts (Event.fallbackRequest :: t) = step1Arts t := rfl

@[simp]
theorem step1Arts_cons_splitRejected (t : List Event) :
    step1Arts (Event.splitRejected :: t) = step1Arts t := rfl

@[simp]
theorem step1Arts_cons_invalid (t : List Event) :
    step1Arts (Event.invalidChoice :: t) = step1Arts t := rfl

@[simp]
theorem step1Arts_cons_op (a b : String) (t : List Event) :
    step1Arts (Event.opRequest a b :: t) = step1Arts t := rfl

@[simp]
theorem step1Arts_cons_download (api u : String) (t : List Event) :
    step1Arts (Event.download api u :: t) = step1Arts t := rfl

@[simp]
theorem step1Arts_cons_saved_one (a : Artifact) (t : List Event) :
    step1Arts (Event.artifactSaved 1 a :: t) = a :: step1Arts t := rfl

@[simp]
theorem step1Arts_cons_saved_two (a : Artifact) (t : List Event) :
    step1Arts (Event.artifactSaved 2 a :: t) = step1Arts t := rfl

@[simp]
theorem savedRows_append (s t : List Event) :
    savedRows (s ++ t) = savedRows s ++ savedRows t := by
  simp [savedRows]

@[simp]
theorem ilovepdfUploads_append (s t : List Event) :
    ilovepdfUploads (s ++ t) = ilovepdfUploads s ++ ilovepdfUploads t := by
  simp [ilovepdfUploads]

@[simp]
theorem step1Arts_append (s t : List Event) :
    step1Arts (s ++ t) = step1Arts s ++ step1Arts t := by
  simp [step1Arts]

theorem select1_events (p : Int) :
    ∀ cs, ∀ e ∈ (selectStage1Choice p cs).1,
      e = Event.splitRejected ∨ e = Event.invalidChoice := by
  intro cs
  induction cs with
  | nil => intro e h; simp [selectStage1Choice] at h
  | cons c rest ih =>
    intro e h
    simp only [selectStage1Choice] at h
    split at h
    · split at h
      · rcases List.mem_cons.mp h with h1 | h2
        · exact Or.inl h1
        · exact ih e h2
      · simp at h
    · rcases List.mem_cons.mp h with h1 | h2
      · exact Or.inr h1
      · exact ih e h2

theorem select2_events :
    ∀ cs, ∀ e ∈ (selectStage2Choice cs).1, e = Event.invalidChoice := by
  intro cs
  induction cs with
  | nil => intro e h; simp [selectStage2Choice] at h
  | cons c rest ih =>
    intro e h
    simp only [selectStage2Choice] at h
    split at h
    · simp at h
    · rcases List.mem_cons.mp h with h1 | h2
      · exact h1
      · exact ih e h2

@[simp]
theorem savedRows_select1 (p : Int) (cs : List String) :
    savedRows (selectStage1Choice p cs).1 = [] := by
  rw [savedRows, List.filterMap_eq_nil_iff]
  intro e he
  rcases select1_events p cs e he with rfl | rfl <;> rfl

@[simp]
theorem ilovepdfUploads_select1 (p : Int) (cs : List String) :
    ilovepdfUploads (selectStage1Choice p cs).1 = [] := by
  rw [ilovepdfUploads, List.filterMap_eq_nil_iff]
  intro e he
  rcases select1_events p cs e he with rfl | rfl <;> rfl

@[simp]
theorem step1Arts_select1 (p : Int) (cs : List String) :
    step1Arts (selectStage1Choice p cs).1 = [] := by
  rw [step1Arts, List.filterMap_eq_nil_iff]
  intro e he
  rcases select1_events p cs e he with rfl | rfl <;> rfl

@[simp]
theorem savedRows_select2 (cs : List String) :
    savedRows (selectStage2Choice cs).1 = [] := by
  rw [savedRows, List.filterMap_eq_nil_iff]
  intro e he
  rcases select2_events cs e he with rfl; rfl

@[simp]
theorem ilovepdfUploads_select2 (cs : List String) :
    ilovepdfUploads (selectStage2Choice cs).1 = [] := by
  rw [ilovepdfUploads, List.filterMap_eq_nil_iff]
  intro e he
  rcases select2_events cs e he with rfl; rfl

@[simp]
theorem step1Arts_select2 (cs : List String) :
    step1Arts (selectStage2Choice cs).1 = [] := by
  rw [step1Arts, List.filterMap_eq_nil_iff]
  intro e he
  rcases select2_events cs e he with rfl; rfl

theorem get_pdf_info_events (i : Except Unit InfoResponse)
    (f : Except Unit (Option Int)) (u : String) :
    (get_pdf_info i f u).2 = [Event.infoRequest] := by
  cases i with
  | error e => rfl
  | ok r =>
    unfold get_pdf_info
    cases hr : r.pageCount with
    | none => simp [hr]
    | some p =>
      by_cases hp : p < 1 <;> simp [hr, hp, dictLookup, pdfcoEndpoints]

theorem pdfcoOp_events (net : Except Unit OpResponse) (op : String) :
    ∀ e ∈ (process_pdfco_operation net op).2,
      ∃ a b, e = Event.opRequest a b := by
  intro e h
  unfold process_pdfco_operation at h
  rcases hd : dictLookup pdfcoOpEndpoints op with _ | ep <;> rw [hd] at h
  · simp at h
  · cases net with
    | ok r => simp at h; exact ⟨_, _, h⟩
    | error _ => simp at h; exact ⟨_, _, h⟩

theorem ilovepdfOp_events (net : Except Unit OpResponse) (op ft : String) :
    ∀ e ∈ (process_ilovepdf_operation net op ft).2,
      ∃ a b, e = Event.opRequest a b := by
  intro e h
  unfold process_ilovepdf_operation at h
  rcases hd : dictLookup (ilovepdfOpEndpoints ft) op with _ | ep <;> rw [hd] at h
  · simp at h
  · cases net with
    | ok r => simp at h; exact ⟨_, _, h⟩
    | error _ => simp at h; exact ⟨_, _, h⟩

@[simp]
theorem savedRows_pdfcoOp (net : Except Unit OpResponse) (op : String) :
    savedRows (process_pdfco_operation net op).2 = [] := by
  rw [savedRows, List.filterMap_eq_nil_iff]
  intro e he
  obtain ⟨a, b, rfl⟩ := pdfcoOp_events net op e he
  rfl

@[simp]
theorem ilovepdfUploads_pdfcoOp (net : Except Unit OpResponse) (op : String) :
    ilovepdfUploads (process_pdfco_operation net op).2 = [] := by
  rw [ilovepdfUploads, List.filterMap_eq_nil_iff]
  intro e he
  obtain ⟨a, b, rfl⟩ := pdfcoOp_events net op e he
  rfl

@[simp]
theorem step1Arts_pdfcoOp (net : Except Unit OpResponse) (op : String) :
    step1Arts (process_pdfco_operation net op).2 = [] := by
  rw [step1Arts, List.filterMap_eq_nil_iff]
  intro e he
  obtain ⟨a, b, rfl⟩ := pdfcoOp_events net op e he
  rfl

@[simp]
theorem savedRows_ilovepdfOp (net : Except Unit OpResponse) (op ft : String) :
    savedRows (process_ilovepdf_operation net op ft).2 = [] := by
  rw [savedRows, List.filterMap_eq_nil_iff]
  intro e he
  obtain ⟨a, b, rfl⟩ := ilovepdfOp_events net op ft e he
  rfl

@[simp]
theorem ilovepdfUploads_ilovepdfOp (net : Except Unit OpResponse)
    (op ft : String) :
    ilovepdfUploads (process_ilovepdf_operation net op ft).2 = [] := by
  rw [ilovepdfUploads, List.filterMap_eq_nil_iff]
  intro e he
  obtain ⟨a, b, rfl⟩ := ilovepdfOp_events net op ft e he
  rfl

@[simp]
theorem step1Arts_ilovepdfOp (net : Except Unit OpResponse) (op ft : String) :
    step1Arts (process_ilovepdf_operation net op ft).2 = [] := by
  rw [step1Arts, List.filterMap_eq_nil_iff]
  intro e he
  obtain ⟨a, b, rfl⟩ := ilovepdfOp_events net op ft e he
  rfl

theorem downloadLoop_savedRows (api od bn ext rt : String) (step : Nat)
    (dl : List (Option Int)) :
    ∀ urls i,
      savedRows (downloadLoop api od bn ext rt step dl urls i).2 =
        ((downloadLoop api od bn ext rt step dl urls i).1).map
          (artifactRow step) := by
  intro urls
  induction urls with
  | nil => intro i; rfl
  | cons u rest ih =>
    intro i
    simp only [downloadLoop]
    cases dl.getD i none with
    | some sz => simp [ih (i + 1)]
    | none => simp [ih (i + 1)]

theorem downloadLoop_uploads (api od bn ext rt : String) (step : Nat)
    (dl : List (Option Int)) :
    ∀ urls i,
      ilovepdfUploads (downloadLoop api od bn ext rt step dl urls i).2 = [] := by
  intro urls
  induction urls with
  | nil => intro i; rfl
  | cons u rest ih =>
    intro i
    simp only [downloadLoop]
    cases dl.getD i none with
    | some sz => simp [ih (i + 1)]
    | none => simp [ih (i + 1)]

theorem downloadLoop_step1Arts_one (api od bn ext rt : String)
    (dl : List (Option Int)) :
    ∀ urls i,
      step1Arts (downloadLoop api od bn ext rt 1 dl urls i).2 =
        (downloadLoop api od bn ext rt 1 dl urls i).1 := by
  intro urls
  induction urls with
  | nil => intro i; rfl
  | cons u rest ih =>
    intro i
    simp only [downloadLoop]
    cases dl.getD i none with
    | some sz => simp [ih (i + 1)]
    | none => simp [ih (i + 1)]

theorem downloadLoop_step1Arts_two (api od bn ext rt : String)
    (dl : List (Option Int)) :
    ∀ urls i,
      step1Arts (downloadLoop api od bn ext rt 2 dl urls i).2 = [] := by
  intro urls
  induction urls with
  | nil => intro i; rfl
  | cons u rest ih =>
    intro i
    simp only [downloadLoop]
    cases dl.getD i none with
    | some sz => simp [ih (i + 1)]
    | none => simp [ih (i + 1)]

@[simp]
theorem finishFail_trace (fn od : String) (ops : List String)
    (rf : List (Nat × List Artifact)) (msg : String) (db : Bool)
    (t : List Event) : (finishFail fn od ops rf msg db t).trace = t := rfl

@[simp]
theorem finishFail_outcome (fn od : String) (ops : List String)
    (rf : List (Nat × List Artifact)) (msg : String) (db : Bool)
    (t : List Event) :
    (finishFail fn od ops rf msg db t).outcome = some (false, msg) := rfl

@[simp]
theorem finishOk_trace (fn od : String) (ops : List String)
    (rf : List (Nat × List Artifact)) (db : Bool) (t : List Event) :
    (finishOk fn od ops rf db t).trace = t := rfl

@[simp]
theorem finishOk_outcome (fn od : String) (ops : List String)
    (rf : List (Nat × List Artifact)) (db : Bool) (t : List Event) :
    (finishOk fn od ops rf db t).outcome =
      some (true, "Обработка завершена успешно") := rfl

theorem finishFail_persisted (fn od : String) (ops : List String)
    (rf : List (Nat × List Artifact)) (msg : String) (db : Bool)
    (t : List Event) (row : JobRow) (arts : List DataRow)
    (h : (finishFail fn od ops rf msg db t).persisted = some (row, arts)) :
    row = ⟨fn, joinArrow ops,
           if pyTruthy (some msg) then "failed" else "completed", od,
           if pyTruthy (some msg) then some (pyTake msg 500) else none⟩ ∧
    arts = rf.flatMap (fun sf => sf.2.map (artifactRow sf.1)) := by
  cases db <;> simp [finishFail, save_to_db] at h
  exact ⟨h.1.symm, h.2.symm⟩

theorem finishOk_persisted (fn od : String) (ops : List String)
    (rf : List (Nat × List Artifact)) (db : Bool)
    (t : List Event) (row : JobRow) (arts : List DataRow)
    (h : (finishOk fn od ops rf db t).persisted = some (row, arts)) :
    row = ⟨fn, joinArrow ops, "completed", od, none⟩ ∧
    arts = rf.flatMap (fun sf => sf.2.map (artifactRow sf.1)) := by
  cases db <;> simp [finishOk, save_to_db, pyTruthy] at h
  exact ⟨h.1.symm, h.2.symm⟩

/-- Behaviour of `runStage2` needed by the claims, given what is known of
the stage-1 trace it extends. -/
theorem runStage2_spec (env : Env) (fn od bn cf ctype : String)
    (ops1 : List String) (files1 : List Artifact) (trace : List Event)
    (hsaved : savedRows trace = List.map (artifactRow 1) files1)
    (hupl : ilovepdfUploads trace = [])
    (hstep1 : step1Arts trace = files1)
    (hne : files1 ≠ []) (R : RunResult)
    (hR : R = runStage2 env fn od bn ops1 [(1, files1)] cf ctype trace) :
    (∀ row arts, R.persisted = some (row, arts) →
        arts = savedRows R.trace ∧
        (row.status = "failed" → ∃ m, row.errorMessage = some m ∧ m ≠ "") ∧
        (row.status = "completed" →
          ∃ a tl, arts = a :: tl ∧ a.stepNumber = 1)) ∧
    step1Arts R.trace = files1 ∧
    (ilovepdfUploads R.trace = [] ∨ ilovepdfUploads R.trace = [cf]) ∧
    (∃ ext2, R.trace = trace ++ ext2) ∧
    (R.outcome = none → R.persisted = none) := by
  obtain ⟨f1, L, hL⟩ := List.exists_cons_of_ne_nil hne
  subst hL
  rcases hsel : (selectStage2Choice env.stage2Choices).2 with _ | choice
  · simp only [runStage2, hsel] at hR
    subst hR
    refine ⟨?_, ?_, ?_, ?_, ?_⟩
    · intro row arts h; simp at h
    · simp [hstep1]
    · left; simp [hupl]
    · exact ⟨_, rfl⟩
    · intro _; rfl
  · simp only [runStage2, hsel] at hR
    rcases hup : env.uploadIlovepdfUrl with _ | u
    · rw [hup] at hR
      subst hR
      refine ⟨?_, ?_, ?_, ?_, ?_⟩
      · intro row arts h
        obtain ⟨hrow, harts⟩ := finishFail_persisted _ _ _ _ _ _ _ _ _ h
        subst hrow harts
        refine ⟨by simp [hsaved], ?_, ?_⟩
        · intro _
          exact ⟨_, rfl, by decide⟩
        · intro hc
          simp [pyTruthy] at hc
      · simp [hstep1]
      · right; simp [hupl]
      · exact ⟨(selectStage2Choice env.stage2Choices).1 ++
          [Event.upload "ilovepdf" cf], by simp⟩
      · intro h; simp at h
    · rw [hup] at hR
      rcases hop :
          (process_ilovepdf_operation env.stage2Net choice
            (if ctype = "pdf" then "pdf" else "image")).1 with _ | rt
      · simp only [hop] at hR
        subst hR
        refine ⟨?_, ?_, ?_, ?_, ?_⟩
        · intro row arts h
          obtain ⟨hrow, harts⟩ := finishFail_persisted _ _ _ _ _ _ _ _ _ h
          subst hrow harts
          refine ⟨by simp [hsaved], ?_, ?_⟩
          · intro _
            exact ⟨_, rfl, by decide⟩
          · intro hc
            simp [pyTruthy] at hc
        · simp [hstep1]
        · right; simp [hupl]
        · exact ⟨(selectStage2Choice env.stage2Choices).1 ++
            Event.upload "ilovepdf" cf ::
              (process_ilovepdf_operation env.stage2Net choice
                (if ctype = "pdf" then "pdf" else "image")).2, by simp⟩
        · intro h; simp at h
      · simp only [hop] at hR
        subst hR
        refine ⟨?_, ?_, ?_, ?_, ?_⟩
        · intro row arts h
          obtain ⟨hrow, harts⟩ := finishOk_persisted _ _ _ _ _ _ _ _ h
          subst hrow harts
          refine ⟨?_, ?_, ?_⟩
          · split
            · next hemp =>
              rw [List.isEmpty_iff] at hemp
              simp [hsaved, downloadLoop_savedRows, hemp]
            · simp [hsaved, downloadLoop_savedRows]
          · intro hst; simp at hst
          · intro _
            split
            · exact ⟨artifactRow 1 f1, List.map (artifactRow 1) L,
                by simp, rfl⟩
            · exact ⟨artifactRow 1 f1,
                List.map (artifactRow 1) L ++
                  List.map (artifactRow 2)
                    (downloadLoop "ilovepdf" od bn (stage2Ext rt.2) rt.2 2
                      env.stage2Dl
                      (List.filterMap id (rt.1.urls.getD [rt.1.url])) 0).1,
                by simp, rfl⟩
        · simp [hstep1, downloadLoop_step1Arts_two]
        · right
          simp [hupl, downloadLoop_uploads]
        · exact ⟨(selectStage2Choice env.stage2Choices).1 ++
            Event.upload "ilovepdf" cf ::
              ((process_ilovepdf_operation env.stage2Net choice
                 (if ctype = "pdf" then "pdf" else "image")).2 ++
               (downloadLoop "ilovepdf" od bn
                  (stage2Ext rt.2) rt.2 2 env.stage2Dl
                  (List.filterMap id (rt.1.urls.getD [rt.1.url])) 0).2),
            by simp⟩
        · intro h; simp at h

theorem process_file_main (fp : String) (env : Env)
    (hfe : env.fileExists = true)
    (hpdf : pyEndsWith (pyLower fp) ".pdf" = true) :
    process_file fp env = processMain fp env := by
  simp [process_file, hfe, hpdf]

/-- Behaviour of one `process_file` run needed by the claims: persisted
artifact rows mirror the downloads of the trace, a failed row carries a
non-empty message, a completed row starts with a stage-1 artifact row, any
ilovepdf upload forwards the first stage-1 artifact, a split rejection is
preceded by the pdfco upload and the metadata request, and a run with no
outcome persisted nothing. -/
theorem process_file_spec (fp : String) (env : Env) (R : RunResult)
    (hR : R = process_file fp env) :
    (∀ row arts, R.persisted = some (row, arts) →
        arts = savedRows R.trace ∧
        (row.status = "failed" → ∃ m, row.errorMessage = some m ∧ m ≠ "") ∧
        (row.status = "completed" →
          ∃ a tl, arts = a :: tl ∧ a.stepNumber = 1)) ∧
    (ilovepdfUploads R.trace = [] ∨
      ∃ a, firstStep1Artifact R.trace = some a ∧
        ilovepdfUploads R.trace = [a.path]) ∧
    (Event.splitRejected ∈ R.trace →
      R.trace.take 2 = [Event.upload "pdfco" fp, Event.infoRequest]) ∧
    (R.outcome = none → R.persisted = none) := by
  rcases hfe : env.fileExists with _ | _
  · simp only [process_file, hfe, Bool.not_false, if_pos] at hR
    subst hR
    exact ⟨fun row arts h => by simp at h, Or.inl rfl,
      fun h => by simp at h, fun h => by simp at h⟩
  · rcases hpdf : pyEndsWith (pyLower fp) ".pdf" with _ | _
    · simp only [process_file, hfe, hpdf, Bool.not_true, Bool.not_false,
        Bool.false_eq_true, if_false, if_pos] at hR
      subst hR
      exact ⟨fun row arts h => by simp at h, Or.inl rfl,
        fun h => by simp at h, fun h => by simp at h⟩
    · rw [process_file_main fp env hfe hpdf] at hR
      simp only [processMain] at hR
      rcases hup : env.uploadPdfcoUrl with _ | fileUrl
      · rw [hup] at hR
        simp only [] at hR
        subst hR
        refine ⟨?_, Or.inl rfl, ?_, ?_⟩
        · intro row arts h
          obtain ⟨hrow, harts⟩ := finishFail_persisted _ _ _ _ _ _ _ _ _ h
          subst hrow harts
          exact ⟨by simp, fun _ => ⟨_, rfl, by decide⟩,
            fun hc => by simp [pyTruthy] at hc⟩
        · intro h; simp at h
        · intro h; simp at h
      · rw [hup] at hR
        simp only [] at hR
        rw [get_pdf_info_events] at hR
        split at hR
        ---- selection never terminates
        next x hsel =>
          subst hR
          refine ⟨?_, Or.inl (by simp [downloadLoop_uploads]), ?_, ?_⟩
          · intro row arts h; simp at h
          · intro _; simp
          · intro _; rfl
        next x choice hsel =>
          rcases hop : (process_pdfco_operation env.stage1Net choice).1
            with _ | rt
          · simp only [hop] at hR
            subst hR
            refine ⟨?_, Or.inl (by simp [downloadLoop_uploads]), ?_, ?_⟩
            · intro row arts h
              obtain ⟨hrow, harts⟩ := finishFail_persisted _ _ _ _ _ _ _ _ _ h
              subst hrow harts
              exact ⟨by simp, fun _ => ⟨_, rfl, by decide⟩,
                fun hc => by simp [pyTruthy] at hc⟩
            · intro _; simp
            · intro h; simp at h
          · simp only [hop] at hR
            split at hR
            ---- stage 1 downloaded nothing
            next x hdl =>
              subst hR
              refine ⟨?_, Or.inl (by simp [downloadLoop_uploads]), ?_, ?_⟩
              · intro row arts h
                obtain ⟨hrow, harts⟩ :=
                  finishFail_persisted _ _ _ _ _ _ _ _ _ h
                subst hrow harts
                refine ⟨?_, fun _ => ⟨_, rfl, by decide⟩,
                  fun hc => by simp [pyTruthy] at hc⟩
                simp [downloadLoop_savedRows, hdl]
              · intro _; simp
              · intro h; simp at h
            next x first rest hdl =>
              split at hR
              ---- stage 2 requested
              next hy =>
                have hspec := runStage2_spec env (basename fp)
                  ("output/" ++ splitextRoot (basename fp))
                  (splitextRoot (basename fp)) first.path rt.2
                  [stage1OpName choice]
                  (first :: rest) _ ?_ ?_ ?_ (by simp) R (by rw [hR, hdl])
                · obtain ⟨h1, h2, h3, h4, h5⟩ := hspec
                  refine ⟨h1, ?_, ?_, h5⟩
                  · rcases h3 with h3 | h3
                    · exact Or.inl h3
                    · refine Or.inr ⟨first, ?_, h3⟩
                      rw [firstStep1Artifact, h2]
                      rfl
                  · intro _
                    obtain ⟨ext2, hext⟩ := h4
                    rw [hext]
                    simp
                · simp [downloadLoop_savedRows, hdl]
                · simp [downloadLoop_uploads]
                · simp [downloadLoop_step1Arts_one, hdl]
              ---- stage 2 declined
              next hy =>
                subst hR
                refine ⟨?_, Or.inl (by simp [downloadLoop_uploads]), ?_, ?_⟩
                · intro row arts h
                  obtain ⟨hrow, harts⟩ := finishOk_persisted _ _ _ _ _ _ _ _ h
                  subst hrow harts
                  refine ⟨?_, fun hst => by simp at hst, ?_⟩
                  · simp [downloadLoop_savedRows, hdl]
                  · intro _
                    exact ⟨artifactRow 1 first,
                      List.map (artifactRow 1) rest, by simp [hdl], rfl⟩
                · intro _; simp
                · intro h; simp at h

theorem runStage2_outcome_dbOk (env : Env) (fn od bn cf ctype : String)
    (ops1 : List String) (rf : List (Nat × List Artifact))
    (trace : List Event) (b : Bool) :
    (runStage2 { env with dbOk := b } fn od bn ops1 rf cf ctype trace).outcome =
      (runStage2 env fn od bn ops1 rf cf ctype trace).outcome := by
  obtain ⟨fe, fs, up, inet, fnet, s1c, s1n, s1d, s2a, s2c, upi, s2n, s2d, db⟩ :=
    env
  simp only [runStage2]
  cases hsel : (selectStage2Choice s2c).2 with
  | none => rfl
  | some c =>
    cases upi with
    | none => rfl
    | some u =>
      cases hop : (process_ilovepdf_operation s2n c
          (if ctype = "pdf" then "pdf" else "image")).1 with
      | none => simp [hop]
      | some rt => simp [hop]

theorem processMain_outcome_dbOk (fp : String) (env : Env) (b : Bool) :
    (processMain fp { env with dbOk := b }).outcome =
      (processMain fp env).outcome := by
  obtain ⟨fe, fs, up, inet, fnet, s1c, s1n, s1d, s2a, s2c, upi, s2n, s2d, db⟩ :=
    env
  simp only [processMain]
  cases up with
  | none => rfl
  | some fileUrl =>
    simp only []
    cases hsel : (selectStage1Choice ((get_pdf_info inet fnet fileUrl).1.getD
        { name := basename fp, pages := 1, size := fs }).pages s1c).2 with
    | none => simp only [hsel]
    | some choice =>
      simp only [hsel]
      cases hop : (process_pdfco_operation s1n choice).1 with
      | none => simp [hop]
      | some rt =>
        simp only [hop]
        cases hdl : (downloadLoop "pdfco"
            ("output/" ++ splitextRoot (basename fp))
            (splitextRoot (basename fp))
            (if rt.2 = "image" then ".jpg" else ".pdf")
            rt.2 1 s1d (List.filterMap id (rt.1.urls.getD [rt.1.url])) 0).1 with
        | nil => simp [hdl]
        | cons first rest =>
          simp only [hdl]
          by_cases hy : pyLower s2a = "y"
          · simp only [if_pos hy]
            exact runStage2_outcome_dbOk ⟨fe, fs, some fileUrl, inet, fnet,
              s1c, s1n, s1d, s2a, s2c, upi, s2n, s2d, db⟩ _ _ _ _ _ _ _ _ b
          · simp [if_neg hy]

theorem process_file_outcome_dbOk (fp : String) (env : Env) (b : Bool) :
    (process_file fp { env with dbOk := b }).outcome =
      (process_file fp env).outcome := by
  obtain ⟨fe, fs, up, inet, fnet, s1c, s1n, s1d, s2a, s2c, upi, s2n, s2d, db⟩ :=
    env
  cases fe with
  | false => rfl
  | true =>
    cases hpdf : pyEndsWith (pyLower fp) ".pdf" with
    | false => simp [process_file, hpdf]
    | true =>
      simp only [process_file, hpdf]
      exact processMain_outcome_dbOk fp ⟨true, fs, up, inet, fnet, s1c, s1n,
        s1d, s2a, s2c, upi, s2n, s2d, db⟩ b

/-- C1 counterexample: in run `envStage2Empty` stage 2 is opted in and
executed — its ilovepdf operation request and its download attempt appear
in the trace — yet it downloads zero artifacts, and the job nevertheless
finishes successfully with persisted status `completed` and no stage-2
artifact rows.  This refutes "the job may finish Completed only when
stage 2 downloaded at least one artifact". -/
theorem claim_C1_counterexample :
    (process_file "report.pdf" envStage2Empty).outcome =
        some (true, "Обработка завершена успешно") ∧
    (process_file "report.pdf" envStage2Empty).persisted =
        some (rowStage2Empty, step1Rows3) ∧
    rowStage2Empty.status = "completed" ∧
    Event.opRequest "ilovepdf" "convert_png" ∈
        (process_file "report.pdf" envStage2Empty).trace ∧
    Event.download "ilovepdf" "v1" ∈
        (process_file "report.pdf" envStage2Empty).trace ∧
    step1Rows3.filter (fun r => r.stepNumber = 2) = [] :=
  ⟨rfl, rfl, rfl, by decide, by decide, by decide⟩

/-- C1 (amended): when a job row is persisted with terminal status
`completed`, stage 1 necessarily produced at least one artifact (the
artifact rows start with a stage-1 row); stage 2, when executed, may have
produced zero artifacts and the job still completes. -/
theorem claim_C1 (fp : String) (env : Env) (row : JobRow)
    (arts : List DataRow)
    (h : (process_file fp env).persisted = some (row, arts))
    (hc : row.status = "completed") :
    ∃ a tl, arts = a :: tl ∧ a.stepNumber = 1 := by
  obtain ⟨h1, -, -, -⟩ := process_file_spec fp env _ rfl
  exact (h1 row arts h).2.2 hc

/-- C1 witness: the amended theorem applied to the baseline completed run. -/
theorem claim_C1_witness :
    ∃ a tl, step1Rows3 = a :: tl ∧ a.stepNumber = 1 :=
  claim_C1 "report.pdf" baseEnv
    ⟨"report.pdf", "Конвертация в JPG", "completed", "output/report", none⟩
    step1Rows3 rfl rfl

/-- C2 counterexample: on a 1-page document with split chosen first, the
upload and the metadata request happen BEFORE the split rejection (they
are the first two events, the rejection the third), and no validation
error is raised: the selector re-prompts, the run continues with the next
choice and even completes. -/
theorem claim_C2_counterexample :
    (process_file "single.pdf" envOnePageSplit).trace.take 3 =
      [Event.upload "pdfco" "single.pdf", Event.infoRequest,
       Event.splitRejected] ∧
    (process_file "single.pdf" envOnePageSplit).outcome =
      some (true, "Обработка завершена успешно") := ⟨rfl, rfl⟩

/-- C2 (amended): requesting split on a document with fewer than 2 pages
is rejected by re-prompting the selector (no exception), and the rejection
can only occur AFTER the upload and the metadata network calls — any run
whose trace contains a split rejection starts with exactly those two
events; a run in which the selector never returns (the rejection is never
overridden) persists no job row. -/
theorem claim_C2 (fp : String) (env : Env)
    (h : Event.splitRejected ∈ (process_file fp env).trace) :
    (process_file fp env).trace.take 2 =
      [Event.upload "pdfco" fp, Event.infoRequest] ∧
    ((process_file fp env).outcome = none →
      (process_file fp env).persisted = none) := by
  obtain ⟨-, -, h3, h4⟩ := process_file_spec fp env _ rfl
  exact ⟨h3 h, h4⟩

/-- C2 witness: the amended theorem applied to the 1-page-split run. -/
theorem claim_C2_witness :
    (process_file "single.pdf" envOnePageSplit).trace.take 2 =
      [Event.upload "pdfco" "single.pdf", Event.infoRequest] ∧
    ((process_file "single.pdf" envOnePageSplit).outcome = none →
      (process_file "single.pdf" envOnePageSplit).persisted = none) :=
  claim_C2 "single.pdf" envOnePageSplit (by decide)

/-- C3 counterexample: with the remote reporting an API fault (explicit
error flag) on every attempt and the default budget of 3, the executor
performs exactly ONE outbound call (and no sleep) before raising — not the
full budget of 3 — so remote-reported API faults are not retried at all,
contrary to "retries both transport faults and remote-reported API faults
up to the full attempt budget, treating them identically". -/
theorem claim_C3_counterexample :
    make_api_request (fun _ => ApiOutcome.apiError (α := Nat) "Remote error")
        defaultMaxRetries = (.error (.apiErr "Remote error"), 1, 0) ∧
    defaultMaxRetries = 3 := ⟨rfl, rfl⟩

/-- C3 (amended): the executor retries only transport faults
(`requests.exceptions.RequestException`) up to the full attempt budget
before raising; a remote-reported API fault (response with an explicit
error flag) raises on the very attempt where it occurs, without retry —
like protocol and validation errors, which never enter the retry loop. -/
theorem claim_C3 :
    (∀ (oracle : Nat → ApiOutcome Nat) (k : Nat), 0 < k →
        (∀ i, i < k → oracle i = .transportFault) →
        make_api_request oracle k = (.error .transport, k, k - 1)) ∧
    (∀ (oracle : Nat → ApiOutcome Nat) (k i : Nat) (m : String), i < k →
        (∀ j, j < i → oracle j = .transportFault) →
        oracle i = .apiError m →
        make_api_request oracle k = (.error (.apiErr m), i + 1, i)) := by
  constructor
  · intro oracle k hk hall
    exact makeApiRequestAux_allTransport oracle k hall k 0 (by omega) hk
  · intro oracle k i m hik hb ha
    exact makeApiRequestAux_apiFault oracle k i m hik hb ha k 0 (by omega)
      (by omega)

/-- C3 witness: both halves of the amended theorem at concrete inputs. -/
theorem claim_C3_witness :
    make_api_request (fun _ => ApiOutcome.transportFault (α := Nat)) 3 =
      (.error .transport, 3, 3 - 1) ∧
    make_api_request (fun _ => ApiOutcome.apiError (α := Nat) "boom") 3 =
      (.error (.apiErr "boom"), 0 + 1, 0) :=
  ⟨claim_C3.1 _ 3 (by decide) (fun _ _ => rfl),
   claim_C3.2 _ 3 0 "boom" (by decide)
     (fun j hj => absurd hj (by omega)) rfl⟩

/-- C4: the documented fallback never yields the page count.  With
`PageCount` absent from the metadata response, the comparison `pages < 1`
is `None < 1`, a `TypeError`, so the whole metadata fetch returns `None`
and no fallback request happens; with `PageCount = 0`, the fallback
endpoint key `'pdf/page/count'` is missing from the pdfco endpoint table,
so the request raises `KeyError` before any network call and the count
stays 0 even though the fallback server would have answered 5 pages. -/
theorem claim_C4_code_bug :
    get_pdf_info (.ok ⟨none, some "doc.pdf", some 7⟩) (.ok (some 5))
        "https://files/doc.pdf" = (none, [Event.infoRequest]) ∧
    get_pdf_info (.ok ⟨some 0, some "doc.pdf", some 7⟩) (.ok (some 5))
        "https://files/doc.pdf" =
      (some ⟨"doc.pdf", 0, 7⟩, [Event.infoRequest]) ∧
    dictLookup pdfcoEndpoints "pdf/page/count" = none := ⟨rfl, rfl, rfl⟩

/-- C5: with a transport fault on every attempt and budget `k > 0`, the
executor performs exactly `k` outbound calls, sleeps the fixed delay
between consecutive attempts but not after the final one (`k - 1` sleeps),
and raises the transport fault; the defaults are 3 attempts and a 2-second
delay. -/
theorem claim_C5 (oracle : Nat → ApiOutcome α) (k : Nat) (hk : 0 < k)
    (hall : ∀ i, i < k → oracle i = .transportFault) :
    make_api_request oracle k = (.error .transport, k, k - 1) ∧
    defaultMaxRetries = 3 ∧ defaultRetryDelay = 2 :=
  ⟨makeApiRequestAux_allTransport oracle k hall k 0 (by omega) hk, rfl, rfl⟩

/-- C5 witness: the theorem at the default budget. -/
theorem claim_C5_witness :
    make_api_request (fun _ => ApiOutcome.transportFault (α := Nat))
        defaultMaxRetries =
      (.error .transport, defaultMaxRetries, defaultMaxRetries - 1) ∧
    defaultMaxRetries = 3 ∧ defaultRetryDelay = 2 :=
  claim_C5 _ defaultMaxRetries (by decide) (fun _ _ => rfl)

/-- C6: the catalog of (provider, input type, operation choice) →
output artifact type matches the static table: pdfco (stage 1, pdf input)
{1 convert-to-image → image, 2 optimize → pdf, 3 split → pdf}; ilovepdf on
pdf input {1 merge → pdf, 2 convert-to-docx → docx, 3 watermark → pdf} and
on image input {1 compress → image, 2 rotate → image,
3 convert-to-png → image}. -/
theorem claim_C6 (r : OpResponse) :
    (process_pdfco_operation (.ok r) "1").1 = some (r, "image") ∧
    (process_pdfco_operation (.ok r) "2").1 = some (r, "pdf") ∧
    (process_pdfco_operation (.ok r) "3").1 = some (r, "pdf") ∧
    (process_ilovepdf_operation (.ok r) "1" "pdf").1 = some (r, "pdf") ∧
    (process_ilovepdf_operation (.ok r) "2" "pdf").1 = some (r, "docx") ∧
    (process_ilovepdf_operation (.ok r) "3" "pdf").1 = some (r, "pdf") ∧
    (process_ilovepdf_operation (.ok r) "1" "image").1 = some (r, "image") ∧
    (process_ilovepdf_operation (.ok r) "2" "image").1 = some (r, "image") ∧
    (process_ilovepdf_operation (.ok r) "3" "image").1 = some (r, "image") :=
  ⟨rfl, rfl, rfl, rfl, rfl, rfl, rfl, rfl, rfl⟩

/-- C7: a job row persisted with status `failed` carries a non-empty error
message; the artifact rows persisted with it are exactly the artifacts the
trace recorded as downloaded before the failure; and the outcome returned
to the caller never depends on whether the persistence step succeeds. -/
theorem claim_C7 (fp : String) (env : Env) (row : JobRow)
    (arts : List DataRow)
    (h : (process_file fp env).persisted = some (row, arts))
    (hf : row.status = "failed") :
    (∃ m, row.errorMessage = some m ∧ m ≠ "") ∧
    arts = savedRows (process_file fp env).trace ∧
    ∀ b, (process_file fp { env with dbOk := b }).outcome =
      (process_file fp env).outcome := by
  obtain ⟨h1, -, -, -⟩ := process_file_spec fp env _ rfl
  obtain ⟨ha, hb, -⟩ := h1 row arts h
  exact ⟨hb hf, ha, fun b => process_file_outcome_dbOk fp env b⟩

/-- C7 witness: the theorem at the stage-2-upload-failure run. -/
theorem claim_C7_witness :
    (∃ m, rowStage2UploadFail.errorMessage = some m ∧ m ≠ "") ∧
    step1Rows3 =
      savedRows (process_file "report.pdf" envStage2UploadFail).trace ∧
    ∀ b, (process_file "report.pdf"
        { envStage2UploadFail with dbOk := b }).outcome =
      (process_file "report.pdf" envStage2UploadFail).outcome :=
  claim_C7 "report.pdf" envStage2UploadFail rowStage2UploadFail step1Rows3
    rfl rfl

/-- C8: whenever a file is uploaded to the ilovepdf provider (the input of
stage 2), it is exactly the first stage-1 artifact in download order — the
remaining stage-1 artifacts are never forwarded. -/
theorem claim_C8 (fp : String) (env : Env) (p : String)
    (h : Event.upload "ilovepdf" p ∈ (process_file fp env).trace) :
    Option.map Artifact.path
      (firstStep1Artifact (process_file fp env).trace) = some p := by
  obtain ⟨-, h2, -, -⟩ := process_file_spec fp env _ rfl
  have hp : p ∈ ilovepdfUploads (process_file fp env).trace :=
    List.mem_filterMap.mpr ⟨Event.upload "ilovepdf" p, h, rfl⟩
  rcases h2 with h2 | ⟨a, ha, hu⟩
  · rw [h2] at hp
    simp at hp
  · rw [hu] at hp
    simp at hp
    rw [ha, hp]
    rfl

/-- C8 witness: in the two-stage run `envForward`, stage 1 downloads three
artifacts and the ilovepdf upload carries the first one. -/
theorem claim_C8_witness :
    Option.map Artifact.path
      (firstStep1Artifact (process_file "report.pdf" envForward).trace) =
      some "output/report/report_step1_1.jpg" :=
  claim_C8 "report.pdf" envForward "output/report/report_step1_1.jpg"
    (by decide)

/-- C9: a path that does not exist, or whose lowercased name does not end
in `.pdf`, makes `process_file` return a failure result with a non-empty
message, with an empty event trace (no network call) and nothing persisted
(no database row). -/
theorem claim_C9 (fp : String) (env : Env)
    (h : env.fileExists = false ∨
      (env.fileExists = true ∧ pyEndsWith (pyLower fp) ".pdf" = false)) :
    ∃ msg, process_file fp env = ⟨some (false, msg), none, []⟩ ∧ msg ≠ "" := by
  rcases h with h | ⟨h1, h2⟩
  · refine ⟨"Файл не найден: " ++ fp, by simp [process_file, h], ?_⟩
    intro hc
    have hlen := congrArg String.length hc
    rw [String.length_append] at hlen
    have he : ("Файл не найден: ").length = 16 := rfl
    have hz : ("" : String).length = 0 := rfl
    rw [he, hz] at hlen
    omega
  · exact ⟨"Поддерживаются только PDF файлы",
      by simp [process_file, h1, h2], by decide⟩

/-- C9 witness: both rejected inputs — a missing file and a `.txt` name. -/
theorem claim_C9_witness :
    (∃ msg, process_file "report.pdf" { baseEnv with fileExists := false } =
        ⟨some (false, msg), none, []⟩ ∧ msg ≠ "") ∧
    (∃ msg, process_file "notes.TXT" baseEnv =
        ⟨some (false, msg), none, []⟩ ∧ msg ≠ "") :=
  ⟨claim_C9 "report.pdf" { baseEnv with fileExists := false } (Or.inl rfl),
   claim_C9 "notes.TXT" baseEnv (Or.inr ⟨rfl, by decide⟩)⟩

/-- C10 counterexample: persisting with the error value `""` (an exception
whose string form is empty) stores `errorMessage = NULL` — not the
truncated string form `""` — because `save_to_db` branches on Python
truthiness (`if error`), under which the empty string counts as no error
(the row is even stored with status `completed`). -/
theorem claim_C10_counterexample :
    (save_to_db "f.pdf" "output/f" [] [] (some "") true).2 =
      some (⟨"f.pdf", "", "completed", "output/f", none⟩, []) := rfl

/-- C10 (amended): a job persisted with a NON-EMPTY error stores the
string form of the error truncated to at most 500 characters; persisted
with no error — or with an empty-string error, which Python truthiness
treats the same — the stored error message is NULL. -/
theorem claim_C10 (fn od : String) (ops : List String)
    (rf : List (Nat × List Artifact)) (err : Option String) (db : Bool)
    (row : JobRow) (arts : List DataRow)
    (h : (save_to_db fn od ops rf err db).2 = some (row, arts)) :
    (∀ s, err = some s → s ≠ "" → row.errorMessage = some (pyTake s 500)) ∧
    ((err = none ∨ err = some "") → row.errorMessage = none) := by
  cases db <;> simp [save_to_db] at h
  obtain ⟨hrow, -⟩ := h
  constructor
  · intro s hs hne
    subst hs
    have hd : s.data ≠ [] := by
      intro hd
      apply hne
      cases s
      simp_all
    rw [← hrow]
    simp [pyTruthy, List.isEmpty_iff, hd]
  · intro hcase
    rw [← hrow]
    rcases hcase with rfl | rfl <;> rfl

/-- C10 witness: the amended theorem at a non-empty error value. -/
theorem claim_C10_witness :
    (∀ s, (some "Ошибка обработки" : Option String) = some s → s ≠ "" →
      (⟨"f.pdf", "", "failed", "output/f",
          some (pyTake "Ошибка обработки" 500)⟩ : JobRow).errorMessage =
        some (pyTake s 500)) ∧
    (((some "Ошибка обработки" : Option String) = none ∨
        (some "Ошибка обработки" : Option String) = some "") →
      (⟨"f.pdf", "", "failed", "output/f",
          some (pyTake "Ошибка обработки" 500)⟩ : JobRow).errorMessage =
        none) :=
  claim_C10 "f.pdf" "output/f" [] [] (some "Ошибка обработки") true
    ⟨"f.pdf", "", "failed", "output/f",
      some (pyTake "Ошибка обработки" 500)⟩ [] rfl

end PDFProc
